import Mathlib

/-!
# Movement-map generator command line (`contrib/mmap/src/generator.cpp`)

A shallow embedding of `handleArgs`, `finish` and `main` of the generator
front end, together with the parts of the C library they rely on
(`atoi`, `strtok`, `strcmp`).  C strings are Lean strings (no embedded NUL),
a null pointer is `none`, `int` values are integers kept inside the 32-bit
range, and everything `main` does to the outside world (reads from standard
input, the `MapBuilder` construction, the build calls, the polling sleeps)
is recorded in a trace.
-/

namespace MMapGen

/-! ## C library -/

/-- The `isspace` of the "C" locale: space, `\t`, `\n`, `\v`, `\f`, `\r`. -/
def isspace (c : Char) : Bool :=
  c.toNat = 32 || (9 ≤ c.toNat && c.toNat ≤ 13)

/-- The `isdigit` of C: `'0'` to `'9'`. -/
def isdigit (c : Char) : Bool :=
  48 ≤ c.toNat && c.toNat ≤ 57

/-- Value of the leading run of decimal digits of `s`, accumulated left to
right starting from `acc`; conversion stops at the first non-digit. -/
def leadingDigits : List Char → Nat → Nat
  | [], acc => acc
  | c :: cs, acc =>
    if isdigit c then leadingDigits cs (acc * 10 + (c.toNat - 48)) else acc

def INT_MIN : Int := -2147483648

def INT_MAX : Int := 2147483647

/-- The mathematical value `atoi` converts: leading white space is skipped,
one optional sign is read, then the longest run of decimal digits. -/
def atoiValue (s : List Char) : Int :=
  let t := s.dropWhile isspace
  if t.head? = some '-' then -(leadingDigits t.tail 0 : Int)
  else if t.head? = some '+' then (leadingDigits t.tail 0 : Int)
  else (leadingDigits t 0 : Int)

/-- C `atoi` on a possibly null pointer.  `none` stands for undefined
behaviour: a null argument, or a value that `int` cannot represent. -/
def atoi : Option String → Option Int
  | none => none
  | some s =>
    let v := atoiValue s.data
    if INT_MIN ≤ v ∧ v ≤ INT_MAX then some v else none

/-- One `strtok` step with the single delimiter `delim`, on the text that is
left to scan: leading delimiters are skipped; at the end of the text the
result is the null pointer; otherwise the token runs up to the next delimiter
and scanning resumes behind that delimiter.  Returns the token and the text
left for the next call `strtok(nullptr, delim)`. -/
def strtok (s : List Char) (delim : Char) : Option String × List Char :=
  match s.dropWhile (fun c => c == delim) with
  | [] => (none, [])
  | c :: cs =>
    (some (String.mk ((c :: cs).takeWhile (fun d => d != delim))),
      ((c :: cs).dropWhile (fun d => d != delim)).drop 1)

/-- Conversion of an unsigned 32-bit value to `int` (two's complement). -/
def toInt32 (n : Nat) : Int :=
  ((n + 2147483648) % 4294967296 : Nat) - 2147483648

/-- The conversion `uint8(threads)`. -/
def toUInt8 (v : Int) : Nat :=
  (v % 256).toNat

/-- The conversion `uint32(mapId)`. -/
def toUInt32 (v : Int) : Nat :=
  (v % 4294967296).toNat

def EXIT_SUCCESS : Int := 0

def EXIT_FAILURE : Int := 1

/-! ## `handleArgs` -/

/-- The variables `main` passes to `handleArgs` by reference. -/
structure Args where
  mapId : Int
  tileX : Int
  tileY : Int
  skipLiquid : Bool
  skipContinents : Bool
  skipJunkMaps : Bool
  skipBattlegrounds : Bool
  debugOutput : Bool
  silent : Bool
  quick : Bool
  buildOnlyGameobjectModels : Bool
  offMeshInputPath : String
  configInputPath : String
  threads : Int
  deriving DecidableEq

/-- How a call of `handleArgs` ends: it returns `ok` with the referenced
variables left as `st`, or it leaves the process through `exit(code)` after
printing the usage, or it runs into undefined behaviour. -/
inductive ArgsResult where
  | returned (ok : Bool) (st : Args)
  | exited (code : Int)
  | undefined
  deriving DecidableEq

/-- The `--tile` branch of `handleArgs` on a non-null parameter, as a
function of the two variables it reads and writes: the two `strtok` calls,
the two `atoi` calls, the two conditional assignments to `tileX` and `tileY`,
and the check of `tileX` and `tileY`.  `none` stands for undefined behaviour;
otherwise the result holds the new `tileX` and `tileY` and says whether the
loop goes on (`true`) or `handleArgs` returns `false`. -/
def handleTile (param : String) (tileX tileY : Int) : Option (Bool × Int × Int) :=
  let first := strtok param.data ','
  let stileX := first.1
  let stileY := (strtok first.2 ',').1
  match atoi stileX, atoi stileY with
  | some tilex, some tiley =>
    let tileX1 := if (tilex > 0 ∧ tilex < 64) ∨ (tilex = 0 ∧ stileX = some "0") then tilex
      else tileX
    let tileY1 := if (tiley > 0 ∧ tiley < 64) ∨ (tiley = 0 ∧ stileY = some "0") then tiley
      else tileY
    if tileX1 < 0 ∨ tileY1 < 0 then some (false, tileX1, tileY1)
    else some (true, tileX1, tileY1)
  | _, _ => none

/-- The loop `for (int i = 1; i < argc; ++i)` of `handleArgs`, on the
arguments from index `i` on.  `argv[argc]` is the null pointer, so an option
that wants a parameter and stands last makes the function return `false`. -/
def handleArgsLoop : List String → Args → ArgsResult
  | [], st => .returned true st
  | a :: rest, st =>
    if a = "--tile" then
      match rest with
      | [] => .returned false st
      | param :: rest2 =>
        match handleTile param st.tileX st.tileY with
        | none => .undefined
        | some (false, x, y) => .returned false { st with tileX := x, tileY := y }
        | some (true, x, y) => handleArgsLoop rest2 { st with tileX := x, tileY := y }
    else if a = "--threads" then
      match rest with
      | [] => .returned false st
      | param :: rest2 =>
        match atoi (some param) with
        | none => .undefined
        | some v => handleArgsLoop rest2 { st with threads := max 1 v }
    else if a = "--skipLiquid" then
      handleArgsLoop rest { st with skipLiquid := true }
    else if a = "--skipContinents" then
      handleArgsLoop rest { st with skipContinents := true }
    else if a = "--skipJunkMaps" then
      handleArgsLoop rest { st with skipJunkMaps := true }
    else if a = "--skipBattlegrounds" then
      handleArgsLoop rest { st with skipBattlegrounds := true }
    else if a = "--debug" then
      handleArgsLoop rest { st with debugOutput := true }
    else if a = "--silent" then
      handleArgsLoop rest { st with silent := true }
    else if a = "--quick" then
      handleArgsLoop rest { st with quick := true }
    else if a = "--onlyGO" then
      handleArgsLoop rest { st with buildOnlyGameobjectModels := true }
    else if a = "--offMeshInput" then
      match rest with
      | [] => .returned false st
      | param :: rest2 => handleArgsLoop rest2 { st with offMeshInputPath := param }
    else if a = "--configInputPath" then
      match rest with
      | [] => .returned false st
      | param :: rest2 => handleArgsLoop rest2 { st with configInputPath := param }
    else if a = "-?" ∨ a = "/?" ∨ a = "-h" then
      .exited 1
    else
      match atoi (some a) with
      | none => .undefined
      | some map =>
        if map > 0 ∨ (map = 0 ∧ a = "0") then
          handleArgsLoop rest { st with mapId := map }
        else if !st.buildOnlyGameobjectModels then
          .returned false st
        else
          handleArgsLoop rest st

/-- `handleArgs(argc, argv, ...)`: `argv[0]` is the program name and is not
looked at. -/
def handleArgs (argv : List String) (st : Args) : ArgsResult :=
  handleArgsLoop (argv.drop 1) st

/-! ## `main` -/

/-- What is outside the program and decides how a run of `main` goes. -/
structure Env where
  /-- Result of `checkDirectories(debugOutput)`. -/
  checkDirectories : Bool → Bool
  /-- Value of `std::thread::hardware_concurrency()`. -/
  hardwareConcurrency : Nat
  /-- Value `getchar()` returns at the "Are you sure you want to continue?"
  prompt. -/
  confirmKey : Int
  /-- Value `std::cin >> threads` leaves in `threads` at the core-count
  prompt. -/
  coresAnswer : Int
  /-- Number of polls in which `builder.IsBusy()` answers `true` before it
  first answers `false`; `none` when it never answers `false`. -/
  busyPolls : Option Nat

/-- The arguments of the `MapBuilder` constructor, in the order of the
call in `main`. -/
structure BuilderConfig where
  configInputPath : String
  skipLiquid : Bool
  skipContinents : Bool
  skipJunkMaps : Bool
  skipBattlegrounds : Bool
  debug : Bool
  quick : Bool
  offMeshInputPath : String
  threads : Nat
  deriving DecidableEq

/-- The build entry points of `MapBuilder` that `main` calls. -/
inductive BuildCall where
  | buildTransports
  | buildSingleTile (mapId tileX tileY : Int)
  | buildSingleMap (mapId : Nat)
  | buildAllMaps
  deriving DecidableEq

/-- What a run of `main` does to the outside world. -/
inductive Event where
  /-- A read from standard input (`getchar`, `std::cin >>`, `std::cin.get`). -/
  | stdinRead
  /-- A call of `checkDirectories` and what it reported. -/
  | checkedDirectories (ok : Bool)
  /-- Construction of the `MapBuilder`. -/
  | construct (cfg : BuilderConfig)
  /-- A build call on the builder. -/
  | build (call : BuildCall)
  /-- One `sleep_for` of the polling loop. -/
  | sleep
  deriving DecidableEq

/-- How a run of `main` ends. -/
inductive Status where
  /-- The function `main` returned this exit code. -/
  | returned (code : Int)
  /-- The process was left through `exit(code)`. -/
  | exited (code : Int)
  /-- The polling loop `while (builder.IsBusy())` never ends. -/
  | polling
  /-- Undefined behaviour was reached. -/
  | undefined
  deriving DecidableEq

/-- A run of `main`: how it ends and what it did, in order. -/
structure Run where
  status : Status
  trace : List Event
  deriving DecidableEq

/-- `finish(message, returnValue)`: prints, waits for a key, returns
`returnValue`. -/
def finish (returnValue : Int) (trace : List Event) : Run :=
  ⟨.returned returnValue, trace ++ [.stdinRead]⟩

/-- The values of the local variables of `main` before `handleArgs` runs. -/
def initialArgs : Args :=
  { mapId := -1, tileX := -1, tileY := -1,
    skipLiquid := false, skipContinents := false, skipJunkMaps := true,
    skipBattlegrounds := false, debugOutput := false, silent := false,
    quick := false, buildOnlyGameobjectModels := false,
    offMeshInputPath := "offmesh.txt", configInputPath := "config.json",
    threads := 0 }

/-- The block `if (!threads) { ... }` of `main`: the new value of `threads`
and the reads from standard input it performs. -/
def chooseThreads (env : Env) (threads : Int) : Int × List Event :=
  if threads = 0 then
    let systemThreads := toInt32 env.hardwareConcurrency
    let answered := env.coresAnswer
    (max 1 (min systemThreads answered), [.stdinRead, .stdinRead, .stdinRead])
  else (threads, [])

/-- The `MapBuilder builder(...)` construction of `main`. -/
def builderConfig (a : Args) (threads : Int) : BuilderConfig :=
  { configInputPath := a.configInputPath, skipLiquid := a.skipLiquid,
    skipContinents := a.skipContinents, skipJunkMaps := a.skipJunkMaps,
    skipBattlegrounds := a.skipBattlegrounds, debug := a.debugOutput,
    quick := a.quick, offMeshInputPath := a.offMeshInputPath,
    threads := toUInt8 threads }

/-- The build calls `main` makes on the builder, in order. -/
def dispatch (a : Args) : List BuildCall :=
  if a.buildOnlyGameobjectModels then [.buildTransports]
  else if a.tileX > -1 ∧ a.tileY > -1 ∧ a.mapId ≥ 0 then
    [.buildSingleTile a.mapId a.tileX a.tileY]
  else if a.mapId ≥ 0 then [.buildSingleMap (toUInt32 a.mapId)]
  else [.buildAllMaps, .buildTransports]

/-- The end of `main`: the polling loop and the final return. -/
def awaitAndReturn (env : Env) (a : Args) (trace : List Event) : Run :=
  match env.busyPolls with
  | none => ⟨.polling, trace⟩
  | some k =>
    let trace2 := trace ++ List.replicate k Event.sleep
    if a.silent then ⟨.returned EXIT_SUCCESS, trace2⟩ else finish EXIT_SUCCESS trace2

/-- The part of `main` from the directory check on. -/
def buildPhase (env : Env) (a : Args) (trace : List Event) : Run :=
  if !env.checkDirectories a.debugOutput then
    let trace1 := trace ++ [.checkedDirectories false]
    if a.silent then ⟨.returned EXIT_FAILURE, trace1⟩ else finish EXIT_FAILURE trace1
  else
    let chosen := chooseThreads env a.threads
    let trace2 := trace ++ [.checkedDirectories true] ++ chosen.2
      ++ [.construct (builderConfig a chosen.1)] ++ (dispatch a).map Event.build
    awaitAndReturn env a trace2

/-- The part of `main` after `handleArgs` returned `true`. -/
def afterArgs (env : Env) (a : Args) : Run :=
  if a.mapId = -1 ∧ a.debugOutput = true ∧ a.buildOnlyGameobjectModels = false then
    if a.silent then ⟨.returned EXIT_FAILURE, []⟩
    else if env.confirmKey ≠ 121 then ⟨.returned EXIT_SUCCESS, [.stdinRead]⟩
    else buildPhase env a [.stdinRead]
  else buildPhase env a []

/-- `main(argc, argv)`. -/
def main (env : Env) (argv : List String) : Run :=
  match handleArgs argv initialArgs with
  | .undefined => ⟨.undefined, []⟩
  | .exited code => ⟨.exited code, []⟩
  | .returned false a =>
    if a.silent then ⟨.returned EXIT_FAILURE, []⟩ else finish EXIT_FAILURE []
  | .returned true a => afterArgs env a

/-- The build calls in a trace, in order. -/
def buildCalls (trace : List Event) : List BuildCall :=
  trace.filterMap fun e => match e with
    | .build c => some c
    | _ => none

/-- The builder configurations in a trace, in order. -/
def constructions (trace : List Event) : List BuilderConfig :=
  trace.filterMap fun e => match e with
    | .construct cfg => some cfg
    | _ => none

/-- Number of reads from standard input in a trace. -/
def stdinReads (trace : List Event) : Nat :=
  trace.count Event.stdinRead

/-- The options `handleArgs` knows, as listed by `printUsage`. -/
def optionFlags : List String :=
  ["--tile", "--threads", "--skipLiquid", "--skipContinents", "--skipJunkMaps",
    "--skipBattlegrounds", "--debug", "--silent", "--quick", "--onlyGO",
    "--offMeshInput", "--configInputPath"]

/-- The output variables of `handleArgs`: the variables `main` passes to it
by reference. -/
inductive Output where
  | mapId
  | tileX
  | tileY
  | skipLiquid
  | skipContinents
  | skipJunkMaps
  | skipBattlegrounds
  | debugOutput
  | silent
  | quick
  | buildOnlyGameobjectModels
  | offMeshInputPath
  | configInputPath
  | threads
  deriving DecidableEq

/-- The argument `a` reads as a map id: `atoi` gives a positive value, or
gives zero and `a` is `"0"`. -/
def readsAsMapId (a : String) : Bool :=
  match atoi (some a) with
  | some map => decide (map > 0 ∨ (map = 0 ∧ a = "0"))
  | none => false

/-- The outputs an argument list asks `handleArgs` to set, read off the
command line alone.  The list is read from the left; an option asks for its
own variable (`--tile` for `tileX` and `tileY`); the argument behind
`--tile`, `--threads`, `--offMeshInput` or `--configInputPath` is that
option's parameter and asks for nothing itself; any other argument asks for
`mapId` when it reads as a map id, and for nothing otherwise. -/
def asked : List String → List Output
  | [] => []
  | a :: rest =>
    if a = "--tile" then
      match rest with
      | [] => []
      | _ :: rest2 => .tileX :: .tileY :: asked rest2
    else if a = "--threads" then
      match rest with
      | [] => []
      | _ :: rest2 => .threads :: asked rest2
    else if a = "--skipLiquid" then .skipLiquid :: asked rest
    else if a = "--skipContinents" then .skipContinents :: asked rest
    else if a = "--skipJunkMaps" then .skipJunkMaps :: asked rest
    else if a = "--skipBattlegrounds" then .skipBattlegrounds :: asked rest
    else if a = "--debug" then .debugOutput :: asked rest
    else if a = "--silent" then .silent :: asked rest
    else if a = "--quick" then .quick :: asked rest
    else if a = "--onlyGO" then .buildOnlyGameobjectModels :: asked rest
    else if a = "--offMeshInput" then
      match rest with
      | [] => []
      | _ :: rest2 => .offMeshInputPath :: asked rest2
    else if a = "--configInputPath" then
      match rest with
      | [] => []
      | _ :: rest2 => .configInputPath :: asked rest2
    else if a = "-?" ∨ a = "/?" ∨ a = "-h" then []
    else if readsAsMapId a then .mapId :: asked rest
    else asked rest

/-- The output `o` has the same value in `st1` as in `st`. -/
def Unchanged (o : Output) (st st1 : Args) : Prop :=
  match o with
  | .mapId => st1.mapId = st.mapId
  | .tileX => st1.tileX = st.tileX
  | .tileY => st1.tileY = st.tileY
  | .skipLiquid => st1.skipLiquid = st.skipLiquid
  | .skipContinents => st1.skipContinents = st.skipContinents
  | .skipJunkMaps => st1.skipJunkMaps = st.skipJunkMaps
  | .skipBattlegrounds => st1.skipBattlegrounds = st.skipBattlegrounds
  | .debugOutput => st1.debugOutput = st.debugOutput
  | .silent => st1.silent = st.silent
  | .quick => st1.quick = st.quick
  | .buildOnlyGameobjectModels =>
    st1.buildOnlyGameobjectModels = st.buildOnlyGameobjectModels
  | .offMeshInputPath => st1.offMeshInputPath = st.offMeshInputPath
  | .configInputPath => st1.configInputPath = st.configInputPath
  | .threads => st1.threads = st.threads

/-- An environment in which the directories are in place, on a machine with
eight hardware threads, whose operator answers `y` and asks for four cores,
and whose builder is idle at the first poll. -/
def envReady : Env :=
  { checkDirectories := fun _ => true, hardwareConcurrency := 8,
    confirmKey := 121, coresAnswer := 4, busyPolls := some 0 }

/-- As `envReady`, but the `maps` directory is missing. -/
def envNoMaps : Env :=
  { envReady with checkDirectories := fun _ => false }

/-- As `envReady`, but the operator answers `n` at the confirmation prompt. -/
def envDecline : Env :=
  { envReady with confirmKey := 110 }

/-! ## Decimal numerals and `atoi` -/

theorem isdigit_digitChar (k : Nat) (h : k < 10) : isdigit (Nat.digitChar k) = true := by
  interval_cases k <;> decide

theorem toDigitsCore_digits (fuel : Nat) : ∀ (n : Nat) (ds : List Char),
    (∀ c ∈ ds, isdigit c = true) → ∀ c ∈ Nat.toDigitsCore 10 fuel n ds, isdigit c = true := by
  induction fuel with
  | zero => intro n ds h; simpa [Nat.toDigitsCore] using h
  | succ f ih =>
    intro n ds h
    have hd : isdigit (Nat.digitChar (n % 10)) = true :=
      isdigit_digitChar _ (Nat.mod_lt _ (by decide))
    have h2 : ∀ c ∈ Nat.digitChar (n % 10) :: ds, isdigit c = true := by
      intro c hc
      rcases List.mem_cons.mp hc with rfl | hc
      · exact hd
      · exact h c hc
    unfold Nat.toDigitsCore
    by_cases hz : n / 10 = 0
    · simpa [hz] using h2
    · simpa [hz] using ih (n / 10) _ h2

theorem toDigitsCore_ne_nil (fuel : Nat) : ∀ (n : Nat) (ds : List Char),
    Nat.toDigitsCore 10 (fuel + 1) n ds ≠ [] := by
  induction fuel with
  | zero =>
    intro n ds
    unfold Nat.toDigitsCore
    by_cases hz : n / 10 = 0 <;> simp [hz, Nat.toDigitsCore]
  | succ f ih =>
    intro n ds
    unfold Nat.toDigitsCore
    by_cases hz : n / 10 = 0
    · simp [hz]
    · simpa [hz] using ih (n / 10) _

theorem digitChar_toNat (k : Nat) (h : k < 10) : (Nat.digitChar k).toNat - 48 = k := by
  interval_cases k <;> decide

theorem toDigitsCore_append (fuel : Nat) : ∀ (n : Nat) (ds : List Char),
    Nat.toDigitsCore 10 fuel n ds = Nat.toDigitsCore 10 fuel n [] ++ ds := by
  induction fuel with
  | zero => intro n ds; simp [Nat.toDigitsCore]
  | succ f ih =>
    intro n ds
    unfold Nat.toDigitsCore
    by_cases hz : n / 10 = 0
    · simp [hz]
    · simp only [hz, if_false]
      rw [ih (n / 10) (Nat.digitChar (n % 10) :: ds), ih (n / 10) [Nat.digitChar (n % 10)]]
      simp

theorem leadingDigits_toDigitsCore (fuel : Nat) : ∀ (n : Nat) (ds : List Char), n < fuel →
    leadingDigits (Nat.toDigitsCore 10 fuel n ds) 0 = leadingDigits ds n := by
  induction fuel with
  | zero => intro n ds h; omega
  | succ f ih =>
    intro n ds h
    have hd : isdigit (Nat.digitChar (n % 10)) = true :=
      isdigit_digitChar _ (Nat.mod_lt _ (by decide))
    have hv := digitChar_toNat (n % 10) (Nat.mod_lt _ (by decide))
    unfold Nat.toDigitsCore
    by_cases hz : n / 10 = 0
    · have hn : n % 10 = n := by omega
      rw [hn] at hd hv
      simp [hz, hn, leadingDigits, hd, hv]
    · have hlt : n / 10 < f := by omega
      simp only [hz, if_false]
      rw [ih (n / 10) _ hlt]
      simp only [leadingDigits, hd, if_true, hv]
      congr 1
      omega
theorem isdigit_facts (c : Char) (h : isdigit c = true) :
    isspace c = false ∧ c ≠ '-' ∧ c ≠ '+' ∧ c ≠ ',' ∧ c ≠ '/' := by
  simp only [isdigit, Bool.and_eq_true, decide_eq_true_eq] at h
  refine ⟨?_, ?_, ?_, ?_, ?_⟩
  · simp only [isspace, Bool.or_eq_false_iff, Bool.and_eq_false_iff, decide_eq_false_iff_not]
    omega
  all_goals
    intro hc
    subst hc
    revert h
    decide

theorem toDigits_shape (n : Nat) :
    ∃ c cs, Nat.toDigits 10 n = c :: cs ∧ isdigit c = true ∧ ∀ d ∈ cs, isdigit d = true := by
  have hall : ∀ c ∈ Nat.toDigits 10 n, isdigit c = true :=
    toDigitsCore_digits (n + 1) n [] (by simp)
  have hne : Nat.toDigits 10 n ≠ [] := toDigitsCore_ne_nil n n []
  cases hl : Nat.toDigits 10 n with
  | nil => exact absurd hl hne
  | cons c cs =>
    rw [hl] at hall
    exact ⟨c, cs, rfl, hall c (List.mem_cons_self _ _), fun d hd => hall d (List.mem_cons_of_mem _ hd)⟩

theorem leadingDigits_toDigits (n : Nat) (rest : List Char) :
    leadingDigits (Nat.toDigits 10 n ++ rest) 0 = leadingDigits rest n := by
  have h := leadingDigits_toDigitsCore (n + 1) n rest (Nat.lt_succ_self n)
  rw [toDigitsCore_append] at h
  exact h

theorem atoiValue_toDigits (n : Nat) : atoiValue (Nat.toDigits 10 n) = n := by
  obtain ⟨c, cs, hl, hc, -⟩ := toDigits_shape n
  obtain ⟨hs, hm, hp, -, -⟩ := isdigit_facts c hc
  have hv := leadingDigits_toDigits n []
  simp only [List.append_nil, leadingDigits] at hv
  unfold atoiValue
  rw [hl] at hv ⊢
  simp [List.dropWhile, hs, hm, hp, hv]

theorem atoi_repr (n : Nat) (h : (n : Int) ≤ INT_MAX) :
    atoi (some (Nat.repr n)) = some (n : Int) := by
  have h0 : INT_MIN ≤ (n : Int) := by
    have : (0 : Int) ≤ n := Int.ofNat_nonneg n
    unfold INT_MIN
    omega
  simp [atoi, Nat.repr, List.asString, atoiValue_toDigits, h, h0]

/-! ## `strtok` on a tile parameter written with decimal numerals -/

theorem bne_comma_of_isdigit (c : Char) (h : isdigit c = true) : (c != ',') = true := by
  have hc := (isdigit_facts c h).2.2.2.1
  simp [hc]

theorem takeWhile_digits (l r : List Char) (h : ∀ c ∈ l, isdigit c = true) :
    (l ++ ',' :: r).takeWhile (fun d => d != ',') = l ∧
    (l ++ ',' :: r).dropWhile (fun d => d != ',') = ',' :: r := by
  induction l with
  | nil => simp [List.takeWhile, List.dropWhile]
  | cons c cs ih =>
    have hb := bne_comma_of_isdigit c (h c (List.mem_cons_self _ _))
    have ih2 := ih (fun d hd => h d (List.mem_cons_of_mem _ hd))
    simp only [List.cons_append, List.takeWhile_cons, List.dropWhile_cons, hb, if_true, ih2,
      and_self]

theorem takeWhile_digits_all (l : List Char) (h : ∀ c ∈ l, isdigit c = true) :
    l.takeWhile (fun d => d != ',') = l ∧ l.dropWhile (fun d => d != ',') = [] := by
  induction l with
  | nil => exact ⟨rfl, rfl⟩
  | cons c cs ih =>
    have hb := bne_comma_of_isdigit c (h c (List.mem_cons_self _ _))
    have ih2 := ih (fun d hd => h d (List.mem_cons_of_mem _ hd))
    simp only [List.takeWhile_cons, List.dropWhile_cons, hb, if_true, ih2, and_self]

theorem strtok_tileParam (x y : Nat) :
    strtok (Nat.repr x ++ "," ++ Nat.repr y).data ',' = (some (Nat.repr x), (Nat.repr y).data) ∧
    strtok (Nat.repr y).data ',' = (some (Nat.repr y), []) := by
  obtain ⟨c, cs, hx, hc, hcs⟩ := toDigits_shape x
  obtain ⟨d, ds, hy, hd, hds⟩ := toDigits_shape y
  have hc' : (c == ',') = false := by simp [(isdigit_facts c hc).2.2.2.1]
  have hd' : (d == ',') = false := by simp [(isdigit_facts d hd).2.2.2.1]
  have hxall : ∀ e ∈ c :: cs, isdigit e = true := by
    intro e he
    rcases List.mem_cons.mp he with rfl | he
    · exact hc
    · exact hcs e he
  have hyall : ∀ e ∈ d :: ds, isdigit e = true := by
    intro e he
    rcases List.mem_cons.mp he with rfl | he
    · exact hd
    · exact hds e he
  have t1 := takeWhile_digits (c :: cs) (d :: ds) hxall
  have t2 := takeWhile_digits_all (d :: ds) hyall
  have hdata : (Nat.repr x ++ "," ++ Nat.repr y).data = c :: (cs ++ ',' :: (d :: ds)) := by
    simp [Nat.repr, List.asString, String.data_append, hx, hy]
  have hxr : Nat.repr x = String.mk (c :: cs) := by simp [Nat.repr, List.asString, hx]
  have hyr : Nat.repr y = String.mk (d :: ds) := by simp [Nat.repr, List.asString, hy]
  simp only [List.cons_append] at t1
  constructor
  · have e1 : List.dropWhile (fun e => e == ',') (c :: (cs ++ ',' :: d :: ds))
        = c :: (cs ++ ',' :: d :: ds) := by
      simp only [List.dropWhile_cons, hc', Bool.false_eq_true, if_false]
    rw [hdata, hxr, hyr]
    unfold strtok
    rw [e1]
    simp only [t1.1, t1.2, List.drop]
  · have e2 : List.dropWhile (fun e => e == ',') (d :: ds) = d :: ds := by
      simp only [List.dropWhile_cons, hd', Bool.false_eq_true, if_false]
    rw [hyr]
    unfold strtok
    rw [e2]
    simp only [t2.1, t2.2, List.drop]

theorem handleTile_decimal (x y : Nat) (hx : x < 64) (hy : y < 64) (tileX tileY : Int) :
    handleTile (Nat.repr x ++ "," ++ Nat.repr y) tileX tileY = some (true, (x : Int), (y : Int)) := by
  obtain ⟨h1, h2⟩ := strtok_tileParam x y
  have ax := atoi_repr x (by unfold INT_MAX; omega)
  have ay := atoi_repr y (by unfold INT_MAX; omega)
  have cx : ((x : Int) > 0 ∧ (x : Int) < 64) ∨ ((x : Int) = 0 ∧ some (Nat.repr x) = some "0") := by
    rcases Nat.eq_zero_or_pos x with h | h
    · subst h; right; exact ⟨rfl, rfl⟩
    · left; omega
  have cy : ((y : Int) > 0 ∧ (y : Int) < 64) ∨ ((y : Int) = 0 ∧ some (Nat.repr y) = some "0") := by
    rcases Nat.eq_zero_or_pos y with h | h
    · subst h; right; exact ⟨rfl, rfl⟩
    · left; omega
  have nx : ¬ ((x : Int) < 0 ∨ (y : Int) < 0) := by omega
  simp only [handleTile, h1, h2, ax, ay, if_pos cx, if_pos cy, if_neg nx]

/-! ## The argument loop, one argument at a time -/

theorem not_validMap_elim {v : Int} {a : String} {P : Prop}
    (hc : v ≤ 0 ∧ (v = 0 → ¬a = "0")) (h : 0 < v ∨ v = 0 ∧ a = "0") : P := by
  rcases h with h1 | ⟨h1, h2⟩
  · omega
  · exact absurd h2 (hc.2 h1)

/-- Arguments that were read to the end and accepted can be followed by more
arguments: the loop goes on with those, from the variables it had reached. -/
theorem handleArgsLoop_append (rest : List String) : ∀ (pre : List String) (st st1 : Args),
    handleArgsLoop pre st = .returned true st1 →
    handleArgsLoop (pre ++ rest) st = handleArgsLoop rest st1 := by
  intro pre st
  induction pre, st using handleArgsLoop.induct <;> intro st1 h <;>
    rw [handleArgsLoop.eq_def] at h <;> simp_all <;>
    (rw [handleArgsLoop.eq_def]; simp_all)
  all_goals
    have hc := ‹(_ : Int) ≤ 0 ∧ _›
    split at h
    next hpos => exact not_validMap_elim hc hpos
    next hneg =>
      rw [if_neg hneg]
      first
        | exact absurd h (by simp)
        | (rename_i ih; exact ih _ h)

/-! ## What the argument loop leaves alone -/

/-- Once set, `buildOnlyGameobjectModels` stays set. -/
theorem onlyGO_sticky : ∀ (args : List String) (st st1 : Args) (ok : Bool),
    handleArgsLoop args st = .returned ok st1 → st.buildOnlyGameobjectModels = true →
    st1.buildOnlyGameobjectModels = true := by
  intro args st
  induction args, st using handleArgsLoop.induct <;> intro st1 ok h <;>
    rw [handleArgsLoop.eq_def] at h <;> simp [*] at h <;> intro hn <;>
    first
      | (obtain ⟨-, rfl⟩ := h; exact hn)
      | (rename_i ih; exact ih _ _ h (by simp [hn]))

/-- How `asked` reads the first argument. -/
theorem asked_cons (a : String) (rest : List String) :
    asked (a :: rest) =
      if a = "--tile" then
        match rest with
        | [] => []
        | _ :: rest2 => .tileX :: .tileY :: asked rest2
      else if a = "--threads" then
        match rest with
        | [] => []
        | _ :: rest2 => .threads :: asked rest2
      else if a = "--skipLiquid" then .skipLiquid :: asked rest
      else if a = "--skipContinents" then .skipContinents :: asked rest
      else if a = "--skipJunkMaps" then .skipJunkMaps :: asked rest
      else if a = "--skipBattlegrounds" then .skipBattlegrounds :: asked rest
      else if a = "--debug" then .debugOutput :: asked rest
      else if a = "--silent" then .silent :: asked rest
      else if a = "--quick" then .quick :: asked rest
      else if a = "--onlyGO" then .buildOnlyGameobjectModels :: asked rest
      else if a = "--offMeshInput" then
        match rest with
        | [] => []
        | _ :: rest2 => .offMeshInputPath :: asked rest2
      else if a = "--configInputPath" then
        match rest with
        | [] => []
        | _ :: rest2 => .configInputPath :: asked rest2
      else if a = "-?" ∨ a = "/?" ∨ a = "-h" then []
      else if readsAsMapId a then .mapId :: asked rest
      else asked rest := by
  rw [asked.eq_def]

theorem frame_mapId : ∀ (args : List String) (st st1 : Args) (ok : Bool),
    handleArgsLoop args st = .returned ok st1 → Output.mapId ∉ asked args →
    st1.mapId = st.mapId := by
  intro args st
  induction args, st using handleArgsLoop.induct <;> intro st1 ok h hn <;>
    rw [handleArgsLoop.eq_def] at h <;> (try rw [asked_cons] at hn) <;>
    simp [*, readsAsMapId] at h hn <;>
    first
      | (obtain ⟨-, rfl⟩ := h; rfl)
      | (rename_i ih; exact ih _ _ h (by simp [hn]))

theorem frame_tileX : ∀ (args : List String) (st st1 : Args) (ok : Bool),
    handleArgsLoop args st = .returned ok st1 → Output.tileX ∉ asked args →
    st1.tileX = st.tileX := by
  intro args st
  induction args, st using handleArgsLoop.induct <;> intro st1 ok h hn <;>
    rw [handleArgsLoop.eq_def] at h <;> (try rw [asked_cons] at hn) <;>
    simp [*, readsAsMapId] at h hn <;>
    first
      | (obtain ⟨-, rfl⟩ := h; rfl)
      | (rename_i ih; exact ih _ _ h (by simp [hn]))

theorem frame_tileY : ∀ (args : List String) (st st1 : Args) (ok : Bool),
    handleArgsLoop args st = .returned ok st1 → Output.tileY ∉ asked args →
    st1.tileY = st.tileY := by
  intro args st
  induction args, st using handleArgsLoop.induct <;> intro st1 ok h hn <;>
    rw [handleArgsLoop.eq_def] at h <;> (try rw [asked_cons] at hn) <;>
    simp [*, readsAsMapId] at h hn <;>
    first
      | (obtain ⟨-, rfl⟩ := h; rfl)
      | (rename_i ih; exact ih _ _ h (by simp [hn]))

theorem frame_skipLiquid : ∀ (args : List String) (st st1 : Args) (ok : Bool),
    handleArgsLoop args st = .returned ok st1 → Output.skipLiquid ∉ asked args →
    st1.skipLiquid = st.skipLiquid := by
  intro args st
  induction args, st using handleArgsLoop.induct <;> intro st1 ok h hn <;>
    rw [handleArgsLoop.eq_def] at h <;> (try rw [asked_cons] at hn) <;>
    simp [*, readsAsMapId] at h hn <;>
    first
      | (obtain ⟨-, rfl⟩ := h; rfl)
      | (rename_i ih; exact ih _ _ h (by simp [hn]))

theorem frame_skipContinents : ∀ (args : List String) (st st1 : Args) (ok : Bool),
    handleArgsLoop args st = .returned ok st1 → Output.skipContinents ∉ asked args →
    st1.skipContinents = st.skipContinents := by
  intro args st
  induction args, st using handleArgsLoop.induct <;> intro st1 ok h hn <;>
    rw [handleArgsLoop.eq_def] at h <;> (try rw [asked_cons] at hn) <;>
    simp [*, readsAsMapId] at h hn <;>
    first
      | (obtain ⟨-, rfl⟩ := h; rfl)
      | (rename_i ih; exact ih _ _ h (by simp [hn]))

theorem frame_skipJunkMaps : ∀ (args : List String) (st st1 : Args) (ok : Bool),
    handleArgsLoop args st = .returned ok st1 → Output.skipJunkMaps ∉ asked args →
    st1.skipJunkMaps = st.skipJunkMaps := by
  intro args st
  induction args, st using handleArgsLoop.induct <;> intro st1 ok h hn <;>
    rw [handleArgsLoop.eq_def] at h <;> (try rw [asked_cons] at hn) <;>
    simp [*, readsAsMapId] at h hn <;>
    first
      | (obtain ⟨-, rfl⟩ := h; rfl)
      | (rename_i ih; exact ih _ _ h (by simp [hn]))

theorem frame_skipBattlegrounds : ∀ (args : List String) (st st1 : Args) (ok : Bool),
    handleArgsLoop args st = .returned ok st1 → Output.skipBattlegrounds ∉ asked args →
    st1.skipBattlegrounds = st.skipBattlegrounds := by
  intro args st
  induction args, st using handleArgsLoop.induct <;> intro st1 ok h hn <;>
    rw [handleArgsLoop.eq_def] at h <;> (try rw [asked_cons] at hn) <;>
    simp [*, readsAsMapId] at h hn <;>
    first
      | (obtain ⟨-, rfl⟩ := h; rfl)
      | (rename_i ih; exact ih _ _ h (by simp [hn]))

theorem frame_debugOutput : ∀ (args : List String) (st st1 : Args) (ok : Bool),
    handleArgsLoop args st = .returned ok st1 → Output.debugOutput ∉ asked args →
    st1.debugOutput = st.debugOutput := by
  intro args st
  induction args, st using handleArgsLoop.induct <;> intro st1 ok h hn <;>
    rw [handleArgsLoop.eq_def] at h <;> (try rw [asked_cons] at hn) <;>
    simp [*, readsAsMapId] at h hn <;>
    first
      | (obtain ⟨-, rfl⟩ := h; rfl)
      | (rename_i ih; exact ih _ _ h (by simp [hn]))

theorem frame_silent : ∀ (args : List String) (st st1 : Args) (ok : Bool),
    handleArgsLoop args st = .returned ok st1 → Output.silent ∉ asked args →
    st1.silent = st.silent := by
  intro args st
  induction args, st using handleArgsLoop.induct <;> intro st1 ok h hn <;>
    rw [handleArgsLoop.eq_def] at h <;> (try rw [asked_cons] at hn) <;>
    simp [*, readsAsMapId] at h hn <;>
    first
      | (obtain ⟨-, rfl⟩ := h; rfl)
      | (rename_i ih; exact ih _ _ h (by simp [hn]))

theorem frame_quick : ∀ (args : List String) (st st1 : Args) (ok : Bool),
    handleArgsLoop args st = .returned ok st1 → Output.quick ∉ asked args →
    st1.quick = st.quick := by
  intro args st
  induction args, st using handleArgsLoop.induct <;> intro st1 ok h hn <;>
    rw [handleArgsLoop.eq_def] at h <;> (try rw [asked_cons] at hn) <;>
    simp [*, readsAsMapId] at h hn <;>
    first
      | (obtain ⟨-, rfl⟩ := h; rfl)
      | (rename_i ih; exact ih _ _ h (by simp [hn]))

theorem frame_buildOnlyGameobjectModels : ∀ (args : List String) (st st1 : Args) (ok : Bool),
    handleArgsLoop args st = .returned ok st1 → Output.buildOnlyGameobjectModels ∉ asked args →
    st1.buildOnlyGameobjectModels = st.buildOnlyGameobjectModels := by
  intro args st
  induction args, st using handleArgsLoop.induct <;> intro st1 ok h hn <;>
    rw [handleArgsLoop.eq_def] at h <;> (try rw [asked_cons] at hn) <;>
    simp [*, readsAsMapId] at h hn <;>
    first
      | (obtain ⟨-, rfl⟩ := h; rfl)
      | (rename_i ih; exact ih _ _ h (by simp [hn]))

theorem frame_offMeshInputPath : ∀ (args : List String) (st st1 : Args) (ok : Bool),
    handleArgsLoop args st = .returned ok st1 → Output.offMeshInputPath ∉ asked args →
    st1.offMeshInputPath = st.offMeshInputPath := by
  intro args st
  induction args, st using handleArgsLoop.induct <;> intro st1 ok h hn <;>
    rw [handleArgsLoop.eq_def] at h <;> (try rw [asked_cons] at hn) <;>
    simp [*, readsAsMapId] at h hn <;>
    first
      | (obtain ⟨-, rfl⟩ := h; rfl)
      | (rename_i ih; exact ih _ _ h (by simp [hn]))

theorem frame_configInputPath : ∀ (args : List String) (st st1 : Args) (ok : Bool),
    handleArgsLoop args st = .returned ok st1 → Output.configInputPath ∉ asked args →
    st1.configInputPath = st.configInputPath := by
  intro args st
  induction args, st using handleArgsLoop.induct <;> intro st1 ok h hn <;>
    rw [handleArgsLoop.eq_def] at h <;> (try rw [asked_cons] at hn) <;>
    simp [*, readsAsMapId] at h hn <;>
    first
      | (obtain ⟨-, rfl⟩ := h; rfl)
      | (rename_i ih; exact ih _ _ h (by simp [hn]))

theorem frame_threads : ∀ (args : List String) (st st1 : Args) (ok : Bool),
    handleArgsLoop args st = .returned ok st1 → Output.threads ∉ asked args →
    st1.threads = st.threads := by
  intro args st
  induction args, st using handleArgsLoop.induct <;> intro st1 ok h hn <;>
    rw [handleArgsLoop.eq_def] at h <;> (try rw [asked_cons] at hn) <;>
    simp [*, readsAsMapId] at h hn <;>
    first
      | (obtain ⟨-, rfl⟩ := h; rfl)
      | (rename_i ih; exact ih _ _ h (by simp [hn]))

/-- Every output that the arguments do not ask `handleArgs` to set keeps
the value it had, whether `handleArgs` returns `true` or `false`. -/
theorem handleArgsLoop_frame (args : List String) (st st1 : Args) (ok : Bool)
    (h : handleArgsLoop args st = .returned ok st1) (o : Output) (ho : o ∉ asked args) :
    Unchanged o st st1 := by
  cases o
  · exact frame_mapId args st st1 ok h ho
  · exact frame_tileX args st st1 ok h ho
  · exact frame_tileY args st st1 ok h ho
  · exact frame_skipLiquid args st st1 ok h ho
  · exact frame_skipContinents args st st1 ok h ho
  · exact frame_skipJunkMaps args st st1 ok h ho
  · exact frame_skipBattlegrounds args st st1 ok h ho
  · exact frame_debugOutput args st st1 ok h ho
  · exact frame_silent args st st1 ok h ho
  · exact frame_quick args st st1 ok h ho
  · exact frame_buildOnlyGameobjectModels args st st1 ok h ho
  · exact frame_offMeshInputPath args st st1 ok h ho
  · exact frame_configInputPath args st st1 ok h ho
  · exact frame_threads args st st1 ok h ho

/-- Arguments without option flags ask for `mapId` at most. -/
theorem asked_without_flags (args : List String) (hno : ∀ a ∈ args, a ∉ optionFlags) :
    ∀ o ∈ asked args, o = Output.mapId := by
  induction args with
  | nil => intro o ho; simp [asked] at ho
  | cons a rest ih =>
    have ha : a ∉ optionFlags := hno a (List.mem_cons_self _ _)
    have hr := ih (fun b hb => hno b (List.mem_cons_of_mem _ hb))
    simp only [optionFlags, List.mem_cons, List.mem_singleton, List.not_mem_nil, or_false,
      not_or] at ha
    obtain ⟨h1, h2, h3, h4, h5, h6, h7, h8, h9, h10, h11, h12⟩ := ha
    intro o ho
    rw [asked_cons] at ho
    simp only [h1, h2, h3, h4, h5, h6, h7, h8, h9, h10, h11, h12, if_false] at ho
    split at ho
    · simp at ho
    · split at ho
      · rcases List.mem_cons.mp ho with rfl | ho
        · rfl
        · exact hr o ho
      · exact hr o ho

/-! ## Decimal numerals as arguments -/

theorem repr_not_option (m : Nat) (b : String)
    (hb : b.data.head? = some '-' ∨ b.data.head? = some '/') : Nat.repr m ≠ b := by
  obtain ⟨c, cs, hl, hc, -⟩ := toDigits_shape m
  obtain ⟨-, hm, -, -, hs⟩ := isdigit_facts c hc
  intro h
  have hd : (Nat.repr m).data.head? = some c := by simp [Nat.repr, List.asString, hl]
  rw [h] at hd
  rcases hb with hb | hb <;> rw [hb] at hd <;> simp only [Option.some.injEq] at hd
  · exact hm hd.symm
  · exact hs hd.symm

/-- A decimal numeral as positional argument sets `mapId`. -/
theorem handleArgsLoop_mapId (m : Nat) (hm : (m : Int) ≤ INT_MAX) (rest : List String)
    (st : Args) :
    handleArgsLoop (Nat.repr m :: rest) st = handleArgsLoop rest { st with mapId := m } := by
  have a := atoi_repr m hm
  have hv : (m : Int) > 0 ∨ ((m : Int) = 0 ∧ Nat.repr m = "0") := by
    rcases Nat.eq_zero_or_pos m with h | h
    · subst h; right; exact ⟨rfl, rfl⟩
    · left; omega
  have n0 : Nat.repr m ≠ "--tile" := repr_not_option m "--tile" (Or.inl rfl)
  have n1 : Nat.repr m ≠ "--threads" := repr_not_option m "--threads" (Or.inl rfl)
  have n2 : Nat.repr m ≠ "--skipLiquid" := repr_not_option m "--skipLiquid" (Or.inl rfl)
  have n3 : Nat.repr m ≠ "--skipContinents" := repr_not_option m "--skipContinents" (Or.inl rfl)
  have n4 : Nat.repr m ≠ "--skipJunkMaps" := repr_not_option m "--skipJunkMaps" (Or.inl rfl)
  have n5 : Nat.repr m ≠ "--skipBattlegrounds" := repr_not_option m "--skipBattlegrounds" (Or.inl rfl)
  have n6 : Nat.repr m ≠ "--debug" := repr_not_option m "--debug" (Or.inl rfl)
  have n7 : Nat.repr m ≠ "--silent" := repr_not_option m "--silent" (Or.inl rfl)
  have n8 : Nat.repr m ≠ "--quick" := repr_not_option m "--quick" (Or.inl rfl)
  have n9 : Nat.repr m ≠ "--onlyGO" := repr_not_option m "--onlyGO" (Or.inl rfl)
  have n10 : Nat.repr m ≠ "--offMeshInput" := repr_not_option m "--offMeshInput" (Or.inl rfl)
  have n11 : Nat.repr m ≠ "--configInputPath" := repr_not_option m "--configInputPath" (Or.inl rfl)
  have n12 : Nat.repr m ≠ "-?" := repr_not_option m "-?" (Or.inl rfl)
  have n13 : Nat.repr m ≠ "/?" := repr_not_option m "/?" (Or.inr rfl)
  have n14 : Nat.repr m ≠ "-h" := repr_not_option m "-h" (Or.inl rfl)
  rw [handleArgsLoop.eq_def]
  simp only [n0, n1, n2, n3, n4, n5, n6, n7, n8, n9, n10, n11, n12, n13, n14, if_false, or_self, a, if_pos hv]

/-! ## The trace of `main` -/

theorem buildCalls_append (t1 t2 : List Event) :
    buildCalls (t1 ++ t2) = buildCalls t1 ++ buildCalls t2 := by
  simp [buildCalls, List.filterMap_append]

theorem buildCalls_map_build (l : List BuildCall) : buildCalls (l.map Event.build) = l := by
  induction l with
  | nil => rfl
  | cons c cs ih =>
    simp only [buildCalls, List.map_cons, List.filterMap_cons] at ih ⊢
    rw [ih]

theorem buildCalls_replicate_sleep (k : Nat) : buildCalls (List.replicate k Event.sleep) = [] := by
  induction k with
  | zero => rfl
  | succ k ih =>
    simp only [buildCalls, List.replicate_succ, List.filterMap_cons] at ih ⊢
    exact ih

theorem buildCalls_chooseThreads (env : Env) (threads : Int) :
    buildCalls (chooseThreads env threads).2 = [] := by
  unfold chooseThreads
  split <;> rfl

theorem buildCalls_awaitAndReturn (env : Env) (a : Args) (t : List Event) :
    buildCalls (awaitAndReturn env a t).trace = buildCalls t := by
  unfold awaitAndReturn
  cases env.busyPolls with
  | none => rfl
  | some k =>
    by_cases hs : a.silent = true
    · simp [hs, buildCalls_append, buildCalls_replicate_sleep]
    · simp [hs, finish, buildCalls_append, buildCalls_replicate_sleep]
      rfl

theorem buildCalls_buildPhase (env : Env) (a : Args) (t : List Event) :
    buildCalls (buildPhase env a t).trace
      = buildCalls t ++ (if env.checkDirectories a.debugOutput = true then dispatch a else []) := by
  unfold buildPhase
  by_cases hd : env.checkDirectories a.debugOutput = true
  · simp only [hd, Bool.not_true, Bool.false_eq_true, if_false, if_true,
      buildCalls_awaitAndReturn, buildCalls_append, buildCalls_chooseThreads,
      buildCalls_map_build]
    simp [buildCalls]
  · simp only [Bool.not_eq_true] at hd
    by_cases hs : a.silent = true <;>
      simp [hd, hs, finish, buildCalls_append] <;> rfl

theorem afterArgs_eq_buildPhase (env : Env) (a : Args)
    (h : a.mapId ≠ -1 ∨ a.debugOutput = false ∨ a.buildOnlyGameobjectModels = true) :
    afterArgs env a = buildPhase env a [] := by
  unfold afterArgs
  have hn : ¬ (a.mapId = -1 ∧ a.debugOutput = true ∧ a.buildOnlyGameobjectModels = false) := by
    rintro ⟨h1, h2, h3⟩
    rcases h with h | h | h
    · exact h h1
    · rw [h2] at h; exact Bool.noConfusion h
    · rw [h3] at h; exact Bool.noConfusion h
  rw [if_neg hn]

theorem handleArgs_singleTile (prog : String) (m x y : Nat) (hm : (m : Int) ≤ INT_MAX)
    (hx : x < 64) (hy : y < 64) (st : Args) :
    handleArgs [prog, Nat.repr m, "--tile", Nat.repr x ++ "," ++ Nat.repr y] st
      = .returned true { st with mapId := m, tileX := x, tileY := y } := by
  unfold handleArgs
  simp only [List.drop_succ_cons, List.drop_zero]
  rw [handleArgsLoop_mapId m hm, handleArgsLoop.eq_def]
  simp only [if_true, handleTile_decimal x y hx hy]
  rw [handleArgsLoop.eq_def]

theorem dispatch_onlyGO (a : Args) (h : a.buildOnlyGameobjectModels = true) :
    dispatch a = [BuildCall.buildTransports] := by
  simp only [dispatch, h, if_true]

theorem handleArgsLoop_onlyGO (rest : List String) (st : Args) :
    handleArgsLoop ("--onlyGO" :: rest) st
      = handleArgsLoop rest { st with buildOnlyGameobjectModels := true } := by
  rw [handleArgsLoop.eq_def]
  simp

theorem constructions_append (t1 t2 : List Event) :
    constructions (t1 ++ t2) = constructions t1 ++ constructions t2 := by
  simp [constructions, List.filterMap_append]

theorem constructions_map_build (l : List BuildCall) :
    constructions (l.map Event.build) = [] := by
  induction l with
  | nil => rfl
  | cons c cs ih =>
    simp only [constructions, List.map_cons, List.filterMap_cons] at ih ⊢
    exact ih

theorem constructions_replicate_sleep (k : Nat) :
    constructions (List.replicate k Event.sleep) = [] := by
  induction k with
  | zero => rfl
  | succ k ih =>
    simp only [constructions, List.replicate_succ, List.filterMap_cons] at ih ⊢
    exact ih

theorem constructions_chooseThreads (env : Env) (threads : Int) :
    constructions (chooseThreads env threads).2 = [] := by
  unfold chooseThreads
  split <;> rfl

theorem constructions_awaitAndReturn (env : Env) (a : Args) (t : List Event) :
    constructions (awaitAndReturn env a t).trace = constructions t := by
  unfold awaitAndReturn
  cases env.busyPolls with
  | none => rfl
  | some k =>
    by_cases hs : a.silent = true
    · simp [hs, constructions_append, constructions_replicate_sleep]
    · simp [hs, finish, constructions_append, constructions_replicate_sleep]
      rfl

theorem constructions_buildPhase (env : Env) (a : Args) (t : List Event) :
    constructions (buildPhase env a t).trace
      = constructions t ++ (if env.checkDirectories a.debugOutput = true
          then [builderConfig a (chooseThreads env a.threads).1] else []) := by
  unfold buildPhase
  by_cases hd : env.checkDirectories a.debugOutput = true
  · simp only [hd, Bool.not_true, Bool.false_eq_true, if_false, if_true,
      constructions_awaitAndReturn, constructions_append, constructions_chooseThreads,
      constructions_map_build]
    simp [constructions]
  · simp only [Bool.not_eq_true] at hd
    by_cases hs : a.silent = true <;>
      simp [hd, hs, finish, constructions_append] <;> rfl

/-! ## Exit codes of `main` -/

theorem dispatch_ne_nil (a : Args) : dispatch a ≠ [] := by
  unfold dispatch
  split
  · simp
  · split
    · simp
    · split <;> simp

theorem checked_not_mem_chooseThreads (env : Env) (threads : Int) (b : Bool) :
    Event.checkedDirectories b ∉ (chooseThreads env threads).2 := by
  unfold chooseThreads
  split <;> simp

theorem failedCheck_in_buildPhase (env : Env) (a : Args) (t : List Event)
    (ht : Event.checkedDirectories false ∉ t)
    (h : Event.checkedDirectories false ∈ (buildPhase env a t).trace) :
    (buildPhase env a t).status = .returned EXIT_FAILURE ∧
      constructions (buildPhase env a t).trace = constructions t ∧
      buildCalls (buildPhase env a t).trace = buildCalls t := by
  by_cases hd : env.checkDirectories a.debugOutput = true
  · exfalso
    revert h
    unfold buildPhase awaitAndReturn
    simp only [hd, Bool.not_true, Bool.false_eq_true, if_false]
    cases env.busyPolls with
    | none => simp [ht, checked_not_mem_chooseThreads]
    | some k =>
      by_cases hs : a.silent = true <;>
        simp [hs, finish, ht, checked_not_mem_chooseThreads, List.mem_replicate]
  · refine ⟨?_, ?_, ?_⟩
    · unfold buildPhase
      simp only [Bool.not_eq_true] at hd
      by_cases hs : a.silent = true <;> simp [hd, hs, finish]
    · rw [constructions_buildPhase, if_neg hd, List.append_nil]
    · rw [buildCalls_buildPhase, if_neg hd, List.append_nil]

theorem main_rejected (env : Env) (argv : List String) (st : Args)
    (h : handleArgs argv initialArgs = .returned false st) :
    (main env argv).status = .returned EXIT_FAILURE ∧
      constructions (main env argv).trace = [] ∧ buildCalls (main env argv).trace = [] := by
  unfold main
  rw [h]
  by_cases hs : st.silent = true <;> simp [hs, finish, constructions, buildCalls]

/-- The three ways the part of `main` after `handleArgs` can go: the silent
refusal to build debug output for all maps, the operator declining at the
prompt, or the build phase. -/
theorem afterArgs_cases (env : Env) (a : Args) :
    (afterArgs env a = ⟨.returned EXIT_FAILURE, []⟩) ∨
    (afterArgs env a = ⟨.returned EXIT_SUCCESS, [.stdinRead]⟩ ∧ a.mapId = -1 ∧
      a.debugOutput = true ∧ a.buildOnlyGameobjectModels = false ∧ a.silent = false ∧
      env.confirmKey ≠ 121) ∨
    (∃ t, (t = [] ∨ t = [Event.stdinRead]) ∧ afterArgs env a = buildPhase env a t) := by
  unfold afterArgs
  by_cases h1 : a.mapId = -1 ∧ a.debugOutput = true ∧ a.buildOnlyGameobjectModels = false
  · rw [if_pos h1]
    by_cases hs : a.silent = true
    · left
      rw [if_pos hs]
    · by_cases hk : env.confirmKey ≠ 121
      · right; left
        rw [if_neg hs, if_pos hk]
        simp only [Bool.not_eq_true] at hs
        exact ⟨rfl, h1.1, h1.2.1, h1.2.2, hs, hk⟩
      · right; right
        rw [if_neg hs, if_neg hk]
        exact ⟨_, Or.inr rfl, rfl⟩
  · right; right
    rw [if_neg h1]
    exact ⟨_, Or.inl rfl, rfl⟩

theorem failedCheck_in_main (env : Env) (argv : List String)
    (h : Event.checkedDirectories false ∈ (main env argv).trace) :
    (main env argv).status = .returned EXIT_FAILURE ∧
      constructions (main env argv).trace = [] ∧ buildCalls (main env argv).trace = [] := by
  unfold main at h ⊢
  cases hr : handleArgs argv initialArgs with
  | undefined => rw [hr] at h; simp at h
  | exited code => rw [hr] at h; simp at h
  | returned ok st =>
    rw [hr] at h
    cases ok with
    | false =>
      exfalso
      revert h
      by_cases hs : st.silent = true <;> simp [hs, finish]
    | true =>
      simp only at h ⊢
      rcases afterArgs_cases env st with hc | ⟨hc, -⟩ | ⟨t, ht, hc⟩
      · rw [hc] at h; simp at h
      · rw [hc] at h; simp at h
      · rw [hc] at h ⊢
        have hnt : Event.checkedDirectories false ∉ t := by
          rcases ht with rfl | rfl <;> simp
        have := failedCheck_in_buildPhase env st t hnt h
        rcases ht with rfl | rfl <;> simpa [constructions, buildCalls] using this

theorem success_in_buildPhase (env : Env) (a : Args) (t : List Event)
    (h : (buildPhase env a t).status = .returned EXIT_SUCCESS) :
    env.checkDirectories a.debugOutput = true ∧ ∃ k, env.busyPolls = some k := by
  unfold buildPhase at h
  by_cases hd : env.checkDirectories a.debugOutput = true
  · refine ⟨hd, ?_⟩
    cases hb : env.busyPolls with
    | none =>
      exfalso
      revert h
      simp [hd, awaitAndReturn, hb]
    | some k => exact ⟨k, rfl⟩
  · exfalso
    revert h
    simp only [Bool.not_eq_true] at hd
    by_cases hs : a.silent = true <;> simp [hd, hs, finish, EXIT_FAILURE, EXIT_SUCCESS]

theorem success_in_main (env : Env) (argv : List String)
    (h : (main env argv).status = .returned EXIT_SUCCESS) :
    (buildCalls (main env argv).trace ≠ [] ∧ ∃ k, env.busyPolls = some k) ∨
    (∃ st, handleArgs argv initialArgs = .returned true st ∧ st.mapId = -1 ∧
      st.debugOutput = true ∧ st.buildOnlyGameobjectModels = false ∧ st.silent = false ∧
      env.confirmKey ≠ 121 ∧ (main env argv).trace = [Event.stdinRead]) := by
  unfold main at h ⊢
  cases hr : handleArgs argv initialArgs with
  | undefined => rw [hr] at h; simp at h
  | exited code => rw [hr] at h; simp at h
  | returned ok st =>
    rw [hr] at h
    cases ok with
    | false =>
      exfalso
      revert h
      by_cases hs : st.silent = true <;> simp [hs, finish, EXIT_FAILURE, EXIT_SUCCESS]
    | true =>
      simp only at h ⊢
      rcases afterArgs_cases env st with hc | ⟨hc, h1, h2, h3, h4, h5⟩ | ⟨t, ht, hc⟩
      · rw [hc] at h
        simp [EXIT_FAILURE, EXIT_SUCCESS] at h
      · right
        exact ⟨st, rfl, h1, h2, h3, h4, h5, by rw [hc]⟩
      · left
        rw [hc] at h ⊢
        obtain ⟨hd, hk⟩ := success_in_buildPhase env st t h
        refine ⟨?_, hk⟩
        rw [buildCalls_buildPhase, if_pos hd]
        intro hnil
        exact dispatch_ne_nil st (List.append_eq_nil.mp hnil).2

/-- A run of `main` makes no build call at all, or exactly the calls of its
dispatch chain on the variables `handleArgs` left. -/
theorem buildCalls_main (env : Env) (argv : List String) :
    buildCalls (main env argv).trace = [] ∨
    ∃ st, handleArgs argv initialArgs = .returned true st ∧
      buildCalls (main env argv).trace = dispatch st := by
  unfold main
  cases hr : handleArgs argv initialArgs with
  | undefined => left; rfl
  | exited code => left; rfl
  | returned ok st =>
    cases ok with
    | false =>
      left
      by_cases hs : st.silent = true <;> simp [hs, finish, buildCalls]
    | true =>
      simp only
      rcases afterArgs_cases env st with hc | ⟨hc, -⟩ | ⟨t, ht, hc⟩
      · left; rw [hc]; rfl
      · left; rw [hc]; rfl
      · rw [hc, buildCalls_buildPhase]
        have hbt : buildCalls t = [] := by
          rcases ht with rfl | rfl <;> rfl
        rw [hbt, List.nil_append]
        by_cases hd : env.checkDirectories st.debugOutput = true
        · right
          exact ⟨st, rfl, by rw [if_pos hd]⟩
        · left
          rw [if_neg hd]

/-! ## The claims -/

/-- The numerals `Nat.repr` writes are the usual decimal numerals. -/
theorem repr_examples : Nat.repr 0 = "0" ∧ Nat.repr 34 = "34" ∧ Nat.repr 46 = "46" ∧
    Nat.repr 34 ++ "," ++ Nat.repr 46 = "34,46" := by decide

/-- Claim C1, as amended.  For every map id `0 ≤ m ≤ INT_MAX` and all tile
coordinates `x, y < 64`, the arguments `m --tile x,y`, written with decimal
numerals, are accepted by `handleArgs`, which sets `mapId = m`, `tileX = x`,
`tileY = y` and nothing else.  `main` then makes exactly one build call,
`buildSingleTile(m, x, y)`, when `checkDirectories` succeeds, and no build call
at all when it fails. -/
theorem single_tile_request (env : Env) (prog : String) (m x y : Nat)
    (hm : (m : Int) ≤ INT_MAX) (hx : x < 64) (hy : y < 64) :
    handleArgs [prog, Nat.repr m, "--tile", Nat.repr x ++ "," ++ Nat.repr y] initialArgs
      = .returned true { initialArgs with mapId := m, tileX := x, tileY := y } ∧
    buildCalls (main env [prog, Nat.repr m, "--tile", Nat.repr x ++ "," ++ Nat.repr y]).trace
      = if env.checkDirectories false = true then [BuildCall.buildSingleTile m x y] else [] := by
  have h := handleArgs_singleTile prog m x y hm hx hy initialArgs
  refine ⟨h, ?_⟩
  unfold main
  rw [h]
  simp only
  rw [afterArgs_eq_buildPhase env _ (Or.inl (by simp only [ne_eq]; omega)), buildCalls_buildPhase]
  have hd : dispatch { initialArgs with mapId := m, tileX := x, tileY := y }
      = [BuildCall.buildSingleTile m x y] := by
    have c : ((x : Int) > -1 ∧ (y : Int) > -1 ∧ (m : Int) ≥ 0) := by omega
    simp only [dispatch, initialArgs, Bool.false_eq_true, if_false, if_pos c]
  rw [hd]
  rfl

/-- The arguments `0 --tile 34,46` of the usage text, with the directories in
place. -/
theorem single_tile_request_witness :
    ((0 : Nat) : Int) ≤ INT_MAX ∧ 34 < 64 ∧ 46 < 64 ∧
    (handleArgs ["movemapgen", Nat.repr 0, "--tile", Nat.repr 34 ++ "," ++ Nat.repr 46]
        initialArgs
        = .returned true { initialArgs with mapId := (0 : Nat), tileX := (34 : Nat), tileY := (46 : Nat) } ∧
      buildCalls (main envReady ["movemapgen", Nat.repr 0, "--tile",
          Nat.repr 34 ++ "," ++ Nat.repr 46]).trace
        = if envReady.checkDirectories false = true
          then [BuildCall.buildSingleTile (0 : Nat) (34 : Nat) (46 : Nat)] else []) :=
  ⟨by decide, by decide, by decide,
    single_tile_request envReady "movemapgen" 0 34 46 (by decide) (by decide) (by decide)⟩

/-- Claim C1 as stated fails when the `maps` directory is missing: the
arguments `0 --tile 34,46` are accepted, but `main` returns `EXIT_FAILURE`
after the directory check and makes no build call.  And a map id above
`INT_MAX` is not a value of `mapId`: on `2147483648` the call of `atoi` is
undefined. -/
theorem single_tile_without_directories :
    handleArgs ["movemapgen", "0", "--tile", "34,46"] initialArgs
      = .returned true { initialArgs with mapId := 0, tileX := 34, tileY := 46 } ∧
    main envNoMaps ["movemapgen", "0", "--tile", "34,46"]
      = ⟨.returned EXIT_FAILURE, [.checkedDirectories false, .stdinRead]⟩ ∧
    buildCalls (main envNoMaps ["movemapgen", "0", "--tile", "34,46"]).trace = [] ∧
    handleArgs ["movemapgen", "2147483648", "--tile", "34,46"] initialArgs = .undefined := by
  decide

/-- Claim C2, as amended.  For every accepted argument list in which
`--onlyGO` stands where `handleArgs` reads an option (the arguments before it
were read to the end and accepted), whatever map id or `--tile` comes before
or after it: `main` makes exactly one build call, `buildTransports`, when
`checkDirectories` succeeds, and no build call at all when it fails. -/
theorem onlyGO_request (env : Env) (prog : String) (pre post : List String) (st1 st : Args)
    (hpre : handleArgsLoop pre initialArgs = .returned true st1)
    (hacc : handleArgs (prog :: (pre ++ "--onlyGO" :: post)) initialArgs = .returned true st) :
    buildCalls (main env (prog :: (pre ++ "--onlyGO" :: post))).trace
      = if env.checkDirectories st.debugOutput = true then [BuildCall.buildTransports] else [] := by
  have hflag : st.buildOnlyGameobjectModels = true := by
    have h2 := hacc
    unfold handleArgs at h2
    simp only [List.drop_succ_cons, List.drop_zero] at h2
    rw [handleArgsLoop_append _ pre initialArgs st1 hpre, handleArgsLoop_onlyGO] at h2
    exact onlyGO_sticky post _ st true h2 rfl
  unfold main
  rw [hacc]
  simp only
  rw [afterArgs_eq_buildPhase env st (Or.inr (Or.inr hflag)), buildCalls_buildPhase,
    dispatch_onlyGO st hflag]
  rfl

/-- The arguments `3 --tile 1,2 --onlyGO --quick`, with the directories in
place. -/
theorem onlyGO_request_witness :
    handleArgsLoop ["3", "--tile", "1,2"] initialArgs
      = .returned true { initialArgs with mapId := 3, tileX := 1, tileY := 2 } ∧
    handleArgs ("movemapgen" :: (["3", "--tile", "1,2"] ++ "--onlyGO" :: ["--quick"])) initialArgs
      = .returned true
        { initialArgs with mapId := 3, tileX := 1, tileY := 2, quick := true, buildOnlyGameobjectModels := true } ∧
    buildCalls (main envReady
        ("movemapgen" :: (["3", "--tile", "1,2"] ++ "--onlyGO" :: ["--quick"]))).trace
      = if envReady.checkDirectories false = true then [BuildCall.buildTransports] else [] :=
  ⟨by decide, by decide,
    onlyGO_request envReady "movemapgen" ["3", "--tile", "1,2"] ["--quick"]
      { initialArgs with mapId := 3, tileX := 1, tileY := 2 }
      { initialArgs with mapId := 3, tileX := 1, tileY := 2, quick := true, buildOnlyGameobjectModels := true }
      (by decide) (by decide)⟩

/-- Claim C2 as stated fails in two ways.  With the `maps` directory missing,
`3 --onlyGO` is accepted but `buildTransports` is never called.  And in
`--offMeshInput --onlyGO` the text `--onlyGO` is the path parameter, not an
option: the argument list is accepted and `main` builds all maps. -/
theorem onlyGO_without_directories :
    (handleArgs ["movemapgen", "3", "--onlyGO"] initialArgs
        = .returned true { initialArgs with mapId := 3, buildOnlyGameobjectModels := true } ∧
      buildCalls (main envNoMaps ["movemapgen", "3", "--onlyGO"]).trace = []) ∧
    (handleArgs ["movemapgen", "--offMeshInput", "--onlyGO"] initialArgs
        = .returned true { initialArgs with offMeshInputPath := "--onlyGO" } ∧
      buildCalls (main envReady ["movemapgen", "--offMeshInput", "--onlyGO"]).trace
        = [BuildCall.buildAllMaps, BuildCall.buildTransports]) := by
  decide

/-- Claim C3 fails on the code.  In `0 --tile 5x,7` the first coordinate is
not an integer, yet `handleArgs` accepts the arguments with `tileX = 5` and
`main` builds tile 5,7; the zero case of the same test does reject such text
(`0x,7`).  In `0 --tile 5,5 --tile 99,99` the second option has coordinates
outside `[0,64)`, yet `handleArgs` accepts and keeps tile 5,5. -/
theorem invalid_tile_accepted :
    handleArgs ["movemapgen", "0", "--tile", "5x,7"] initialArgs
      = .returned true { initialArgs with mapId := 0, tileX := 5, tileY := 7 } ∧
    buildCalls (main envReady ["movemapgen", "0", "--tile", "5x,7"]).trace
      = [BuildCall.buildSingleTile 0 5 7] ∧
    handleArgs ["movemapgen", "0", "--tile", "0x,7"] initialArgs
      = .returned false { initialArgs with mapId := 0, tileY := 7 } ∧
    handleArgs ["movemapgen", "0", "--tile", "5,5", "--tile", "99,99"] initialArgs
      = .returned true { initialArgs with mapId := 0, tileX := 5, tileY := 5 } ∧
    buildCalls (main envReady ["movemapgen", "0", "--tile", "5,5", "--tile", "99,99"]).trace
      = [BuildCall.buildSingleTile 0 5 5] := by
  decide

/-- Claim C4 fails on the code.  On a machine with eight hardware threads,
`--threads 256` hands the thread count 0 to the `MapBuilder` and
`--threads 1000` hands it 232, while the same answer 1000 at the core-count
prompt is clamped to 8. -/
theorem threads_option_not_clamped :
    envReady.hardwareConcurrency = 8 ∧
    (constructions (main envReady ["movemapgen", "--threads", "256"]).trace).map
      BuilderConfig.threads = [0] ∧
    (constructions (main envReady ["movemapgen", "--threads", "1000"]).trace).map
      BuilderConfig.threads = [232] ∧
    (constructions (main { envReady with coresAnswer := 1000 } ["movemapgen"]).trace).map
      BuilderConfig.threads = [8] := by
  decide

/-- Claim C5 fails on the code.  With `--silent` alone and the directories in
place, `main` reads standard input three times at the core-count prompt
before it constructs the builder; and in `abc --silent` the invalid map id ends
`handleArgs` before `--silent` is read, so `main` waits for a key in
`finish`. -/
theorem silent_run_reads_stdin :
    handleArgs ["movemapgen", "--silent"] initialArgs
      = .returned true { initialArgs with silent := true } ∧
    (main envReady ["movemapgen", "--silent"]).trace.take 4
      = [.checkedDirectories true, .stdinRead, .stdinRead, .stdinRead] ∧
    stdinReads (main envReady ["movemapgen", "--silent"]).trace = 3 ∧
    main envReady ["movemapgen", "abc", "--silent"]
      = ⟨.returned EXIT_FAILURE, [.stdinRead]⟩ := by
  decide

/-- Claim C6, as amended.  Whenever `handleArgs` returns `false`, and
whenever `checkDirectories` reports a missing directory, `main` returns a
nonzero exit code, silent or not, without constructing a `MapBuilder` and
without any build call.  `main` returns 0 only where a build call was made
and the polling loop came to its end, or where the operator answered
something other than `y` at the confirmation prompt for debug output of all
maps, in which case nothing was read but that answer and nothing was
built. -/
theorem exit_codes (env : Env) (argv : List String) :
    (∀ st, handleArgs argv initialArgs = .returned false st →
      (∃ code, (main env argv).status = .returned code ∧ code ≠ 0) ∧
      constructions (main env argv).trace = [] ∧ buildCalls (main env argv).trace = []) ∧
    (Event.checkedDirectories false ∈ (main env argv).trace →
      (∃ code, (main env argv).status = .returned code ∧ code ≠ 0) ∧
      constructions (main env argv).trace = [] ∧ buildCalls (main env argv).trace = []) ∧
    ((main env argv).status = .returned 0 →
      (buildCalls (main env argv).trace ≠ [] ∧ ∃ k, env.busyPolls = some k) ∨
      (∃ st, handleArgs argv initialArgs = .returned true st ∧ st.mapId = -1 ∧
        st.debugOutput = true ∧ st.buildOnlyGameobjectModels = false ∧ st.silent = false ∧
        env.confirmKey ≠ 121 ∧ (main env argv).trace = [Event.stdinRead])) := by
  refine ⟨?_, ?_, ?_⟩
  · intro st h
    obtain ⟨h1, h2, h3⟩ := main_rejected env argv st h
    exact ⟨⟨EXIT_FAILURE, h1, by decide⟩, h2, h3⟩
  · intro h
    obtain ⟨h1, h2, h3⟩ := failedCheck_in_main env argv h
    exact ⟨⟨EXIT_FAILURE, h1, by decide⟩, h2, h3⟩
  · intro h
    exact success_in_main env argv h

/-- The three parts at `--silent abc`, at a run without the `maps` directory,
and at a run that builds map 7. -/
theorem exit_codes_witness :
    (handleArgs ["movemapgen", "--silent", "abc"] initialArgs
        = .returned false { initialArgs with silent := true } ∧
      ((∃ code, (main envReady ["movemapgen", "--silent", "abc"]).status = .returned code ∧
          code ≠ 0) ∧
        constructions (main envReady ["movemapgen", "--silent", "abc"]).trace = [] ∧
        buildCalls (main envReady ["movemapgen", "--silent", "abc"]).trace = [])) ∧
    (Event.checkedDirectories false ∈ (main envNoMaps ["movemapgen"]).trace ∧
      ((∃ code, (main envNoMaps ["movemapgen"]).status = .returned code ∧ code ≠ 0) ∧
        constructions (main envNoMaps ["movemapgen"]).trace = [] ∧
        buildCalls (main envNoMaps ["movemapgen"]).trace = [])) ∧
    ((main envReady ["movemapgen", "7"]).status = .returned 0 ∧
      buildCalls (main envReady ["movemapgen", "7"]).trace = [BuildCall.buildSingleMap 7]) :=
  ⟨⟨by decide,
      (exit_codes envReady ["movemapgen", "--silent", "abc"]).1
        { initialArgs with silent := true } (by decide)⟩,
    ⟨by decide, (exit_codes envNoMaps ["movemapgen"]).2.1 (by decide)⟩,
    ⟨by decide, by decide⟩⟩

/-- Claim C6 as stated fails at `--debug` when the operator answers `n`:
`main` returns 0 although no builder was constructed and no build call was
made. -/
theorem declined_prompt_exits_zero :
    main envDecline ["movemapgen", "--debug"] = ⟨.returned 0, [.stdinRead]⟩ ∧
    buildCalls (main envDecline ["movemapgen", "--debug"]).trace = [] ∧
    constructions (main envDecline ["movemapgen", "--debug"]).trace = [] := by
  decide

/-- Claim C7, as amended.  The only runs in which `main` calls
`buildTransports` together with another build are the runs that build
everything: no `--onlyGO` and no map id were accepted, and the build calls are
exactly `buildAllMaps` followed by `buildTransports`.  With `--onlyGO` or with
a map id, the transport build and the map and tile builds exclude each
other. -/
theorem transports_alongside_maps (env : Env) (argv : List String)
    (ht : BuildCall.buildTransports ∈ buildCalls (main env argv).trace)
    (ho : ∃ c ∈ buildCalls (main env argv).trace, c ≠ BuildCall.buildTransports) :
    buildCalls (main env argv).trace = [BuildCall.buildAllMaps, BuildCall.buildTransports] ∧
    ∃ st, handleArgs argv initialArgs = .returned true st ∧
      st.buildOnlyGameobjectModels = false ∧ st.mapId < 0 := by
  rcases buildCalls_main env argv with h | ⟨st, hst, h⟩
  · rw [h] at ht
    simp at ht
  · rw [h] at ht ho ⊢
    unfold dispatch at ht ho ⊢
    by_cases h1 : st.buildOnlyGameobjectModels = true
    · exfalso
      simp only [h1, if_true, List.mem_singleton] at ho
      obtain ⟨c, hc, hne⟩ := ho
      exact hne hc
    · simp only [h1, Bool.false_eq_true, if_false] at ht ho ⊢
      by_cases h2 : st.tileX > -1 ∧ st.tileY > -1 ∧ st.mapId ≥ 0
      · exfalso
        simp [h2] at ht
      · simp only [h2, if_false] at ht ho ⊢
        by_cases h3 : st.mapId ≥ 0
        · exfalso
          simp [h3] at ht
        · simp only [h3, if_false]
          simp only [Bool.not_eq_true] at h1
          exact ⟨trivial, st, hst, h1, by omega⟩

/-- The run on `--quick`, with the directories in place. -/
theorem transports_alongside_maps_witness :
    BuildCall.buildTransports ∈ buildCalls (main envReady ["movemapgen", "--quick"]).trace ∧
    (∃ c ∈ buildCalls (main envReady ["movemapgen", "--quick"]).trace,
      c ≠ BuildCall.buildTransports) ∧
    (buildCalls (main envReady ["movemapgen", "--quick"]).trace
        = [BuildCall.buildAllMaps, BuildCall.buildTransports] ∧
      ∃ st, handleArgs ["movemapgen", "--quick"] initialArgs = .returned true st ∧
        st.buildOnlyGameobjectModels = false ∧ st.mapId < 0) :=
  ⟨by decide, ⟨BuildCall.buildAllMaps, by decide, by decide⟩,
    transports_alongside_maps envReady ["movemapgen", "--quick"] (by decide)
      ⟨BuildCall.buildAllMaps, by decide, by decide⟩⟩

/-- Claim C7 as stated fails on the empty argument list, which is accepted:
`main` calls `buildAllMaps` and then `buildTransports` in the same run. -/
theorem everything_build_includes_transports :
    handleArgs ["movemapgen"] initialArgs = .returned true initialArgs ∧
    buildCalls (main envReady ["movemapgen"]).trace
      = [BuildCall.buildAllMaps, BuildCall.buildTransports] := by
  decide

/-- Claim C8 fails on the code.  The arguments `--tile 5,5`, without a map
id, are accepted by `handleArgs`, and `main` calls `buildAllMaps` and
`buildTransports`. -/
theorem tile_without_map_builds_everything :
    handleArgs ["movemapgen", "--tile", "5,5"] initialArgs
      = .returned true { initialArgs with tileX := 5, tileY := 5 } ∧
    (main envReady ["movemapgen", "--tile", "5,5"]).status = .returned EXIT_SUCCESS ∧
    buildCalls (main envReady ["movemapgen", "--tile", "5,5"]).trace
      = [BuildCall.buildAllMaps, BuildCall.buildTransports] := by
  decide

/-- Claim C9.  For every accepted argument list without option flags (empty,
or map ids only), the `MapBuilder` is constructed, if the directory check lets
`main` get that far, with `skipJunkMaps = true`, `skipLiquid = skipContinents =
skipBattlegrounds = false`, `debug = quick = false`, the paths `offmesh.txt`
and `config.json`, and the thread count answered at the prompt; and
`handleArgs`, from any starting values and on any arguments, leaves every
output unchanged that the arguments do not ask it to set: an option's
parameter asks for nothing, so `--threads 4` or `--tile 3,4` leave `mapId`
alone and `--offMeshInput --debug` leaves `debugOutput` alone. -/
theorem default_configuration (env : Env) (prog : String) (args : List String) (st : Args)
    (hno : ∀ a ∈ args, a ∉ optionFlags)
    (hacc : handleArgs (prog :: args) initialArgs = .returned true st) :
    constructions (main env (prog :: args)).trace
      = (if env.checkDirectories false = true then
          [{ configInputPath := "config.json", skipLiquid := false, skipContinents := false,
             skipJunkMaps := true, skipBattlegrounds := false, debug := false, quick := false,
             offMeshInputPath := "offmesh.txt",
             threads := toUInt8 (max 1 (min (toInt32 env.hardwareConcurrency) env.coresAnswer)) }]
        else []) ∧
    ∀ (args0 : List String) (st0 st1 : Args) (ok : Bool),
      handleArgs (prog :: args0) st0 = .returned ok st1 →
      ∀ o : Output, o ∉ asked args0 → Unchanged o st0 st1 := by
  constructor
  · have h2 := hacc
    unfold handleArgs at h2
    simp only [List.drop_succ_cons, List.drop_zero] at h2
    have hna : ∀ o : Output, o ≠ Output.mapId → o ∉ asked args :=
      fun o hne ho => hne (asked_without_flags args hno o ho)
    have e2 := frame_threads args initialArgs st true h2 (hna _ (by decide))
    have e3 := frame_skipLiquid args initialArgs st true h2 (hna _ (by decide))
    have e4 := frame_skipContinents args initialArgs st true h2 (hna _ (by decide))
    have e5 := frame_skipJunkMaps args initialArgs st true h2 (hna _ (by decide))
    have e6 := frame_skipBattlegrounds args initialArgs st true h2 (hna _ (by decide))
    have e7 := frame_debugOutput args initialArgs st true h2 (hna _ (by decide))
    have e9 := frame_quick args initialArgs st true h2 (hna _ (by decide))
    have e11 := frame_offMeshInputPath args initialArgs st true h2 (hna _ (by decide))
    have e12 := frame_configInputPath args initialArgs st true h2 (hna _ (by decide))
    unfold main
    rw [hacc]
    simp only
    rw [afterArgs_eq_buildPhase env st (Or.inr (Or.inl e7)), constructions_buildPhase]
    simp only [builderConfig, chooseThreads, e2, e3, e4, e5, e6, e7, e9, e11, e12, initialArgs,
      if_true]
    rfl
  · intro args0 st0 st1 ok h o ho
    exact handleArgsLoop_frame args0 st0 st1 ok h o ho

/-- The argument list `0`, with the directories in place; and the frame at
`--threads 4 --offMeshInput --debug`, which asks for `threads` and
`offMeshInputPath` only and so leaves `mapId` and `debugOutput` as they
were. -/
theorem default_configuration_witness :
    (∀ a ∈ ["0"], a ∉ optionFlags) ∧
    handleArgs ("movemapgen" :: ["0"]) initialArgs
      = .returned true { initialArgs with mapId := 0 } ∧
    constructions (main envReady ("movemapgen" :: ["0"])).trace
      = (if envReady.checkDirectories false = true then
          [{ configInputPath := "config.json", skipLiquid := false, skipContinents := false,
             skipJunkMaps := true, skipBattlegrounds := false, debug := false, quick := false,
             offMeshInputPath := "offmesh.txt",
             threads := toUInt8
               (max 1 (min (toInt32 envReady.hardwareConcurrency) envReady.coresAnswer)) }]
        else []) ∧
    asked ["--threads", "4", "--offMeshInput", "--debug"]
      = [Output.threads, Output.offMeshInputPath] ∧
    handleArgs ("movemapgen" :: ["--threads", "4", "--offMeshInput", "--debug"]) initialArgs
      = .returned true { initialArgs with threads := 4, offMeshInputPath := "--debug" } ∧
    Unchanged Output.mapId initialArgs
      { initialArgs with threads := 4, offMeshInputPath := "--debug" } ∧
    Unchanged Output.debugOutput initialArgs
      { initialArgs with threads := 4, offMeshInputPath := "--debug" } :=
  ⟨by decide, by decide,
    (default_configuration envReady "movemapgen" ["0"] { initialArgs with mapId := 0 }
      (by decide) (by decide)).1,
    by decide, by decide,
    (default_configuration envReady "movemapgen" ["0"] { initialArgs with mapId := 0 }
      (by decide) (by decide)).2 ["--threads", "4", "--offMeshInput", "--debug"] initialArgs
      { initialArgs with threads := 4, offMeshInputPath := "--debug" } true (by decide)
      Output.mapId (by decide),
    (default_configuration envReady "movemapgen" ["0"] { initialArgs with mapId := 0 }
      (by decide) (by decide)).2 ["--threads", "4", "--offMeshInput", "--debug"] initialArgs
      { initialArgs with threads := 4, offMeshInputPath := "--debug" } true (by decide)
      Output.debugOutput (by decide)⟩

end MMapGen
